import Mathlib

/-!
Verification of the document/schema layer of `fiftyone/core/odm`
(`dataset.py`, `evaluation.py`).

The embedding models Python attribute access explicitly: an attribute slot
on a field descriptor is either absent (so that a direct `field.attr`
access raises `AttributeError`), or present with a Python truthiness flag
and the string that `etau.get_class_name` returns for its value.
Fallible code (a `matches_field` call that can raise) returns `Except`.
-/

/-- A Python attribute slot on a field-descriptor object: either absent
(direct access raises), or present with its truthiness and the
fully-qualified class name that `etau.get_class_name` yields for it. -/
inductive PyAttr where
  | absent : PyAttr
  | present (truthy : Bool) (className : String) : PyAttr
deriving DecidableEq, Repr

/-- A Field Descriptor: a live MongoEngine field with a `name`, a runtime
class name (`etau.get_class_name(field)`), and optional `field` /
`document_type` attributes. -/
structure FieldDescriptor where
  name : String
  className : String
  field : PyAttr
  document_type : PyAttr
deriving DecidableEq, Repr

/-- `SampleFieldDocument`: the persisted projection of a Field Descriptor.
All four slots are MongoEngine `StringField`s, hence nullable (`Option`). -/
structure SampleFieldDocument where
  name : Option String
  ftype : Option String
  subfield : Option String
  embedded_doc_type : Option String
deriving DecidableEq, Repr

/-- Python truthiness of an optional string: `None` and `""` are falsy. -/
def pyTruthy : Option String → Bool
  | none => false
  | some s => s != ""

/-- `SampleFieldDocument._get_attr_repr(field, attr_name)`:
`attr = getattr(field, attr_name, None); return etau.get_class_name(attr) if attr else None`. -/
def SampleFieldDocument.getAttrRepr : PyAttr → Option String
  | PyAttr.absent => none
  | PyAttr.present truthy c => if truthy then some c else none

/-- `SampleFieldDocument.from_field(field)`. -/
def SampleFieldDocument.from_field (f : FieldDescriptor) : SampleFieldDocument :=
  { name := some f.name
    ftype := some f.className
    subfield := SampleFieldDocument.getAttrRepr f.field
    embedded_doc_type := SampleFieldDocument.getAttrRepr f.document_type }

/-- `SampleFieldDocument.list_from_field_schema(d)`: one projection per
value of the mapping (iteration order) whose descriptor name is not `"id"`. -/
def SampleFieldDocument.list_from_field_schema
    (d : List (String × FieldDescriptor)) : List SampleFieldDocument :=
  ((d.map Prod.snd).filter (fun f => f.name != "id")).map SampleFieldDocument.from_field

/-- The tail of `matches_field` from the `embedded_doc_type` guard on:
`if self.embedded_doc_type and self.embedded_doc_type != etau.get_class_name(field.document_type): return False`
then `return True`. A truthy `embedded_doc_type` dereferences
`field.document_type`, raising when the attribute is absent. -/
def SampleFieldDocument.embeddedDocTypeCheck
    (self : SampleFieldDocument) (f : FieldDescriptor) : Except String Bool :=
  if pyTruthy self.embedded_doc_type then
    match f.document_type with
    | PyAttr.absent => Except.error "AttributeError: document_type"
    | PyAttr.present _ c =>
      if self.embedded_doc_type ≠ some c then Except.ok false
      else Except.ok true
  else Except.ok true

/-- `SampleFieldDocument.matches_field(field)`: sequential early-return
checks on `name`, `ftype`, then `subfield` (guarded by its truthiness; the
comparison dereferences `field.field`, raising when absent), then
`embedded_doc_type` likewise. -/
def SampleFieldDocument.matches_field
    (self : SampleFieldDocument) (f : FieldDescriptor) : Except String Bool :=
  if self.name ≠ some f.name then Except.ok false
  else if self.ftype ≠ some f.className then Except.ok false
  else if pyTruthy self.subfield then
    match f.field with
    | PyAttr.absent => Except.error "AttributeError: field"
    | PyAttr.present _ c =>
      if self.subfield ≠ some c then Except.ok false
      else SampleFieldDocument.embeddedDocTypeCheck self f
  else SampleFieldDocument.embeddedDocTypeCheck self f

/-- `DatasetDocument`: the persisted root record for a dataset, with the
fields declared in the source (`StringField`s are nullable unless
required; `persistent` defaults false; mappings and embedded lists). -/
structure DatasetDocument where
  media_type : Option String
  name : String
  sample_collection_name : String
  persistent : Bool
  info : List (String × String)
  sample_fields : List SampleFieldDocument
  default_targets : Option (List (Int × String))
  field_targets : List (String × List (Int × String))
  frame_fields : List SampleFieldDocument
  version : Option String
deriving DecidableEq, Repr

/-- One MongoEngine field declaration of `DatasetDocument`, reduced to the
name and the `unique=True` flag the source sets on it. -/
structure FieldDecl where
  fname : String
  unique : Bool
deriving DecidableEq, Repr

/-- The field declarations of `DatasetDocument` as written in the source:
only `name` and `sample_collection_name` carry `unique=True`. -/
def datasetFieldDecls : List FieldDecl :=
  [⟨"media_type", false⟩, ⟨"name", true⟩, ⟨"sample_collection_name", true⟩,
   ⟨"persistent", false⟩, ⟨"info", false⟩, ⟨"sample_fields", false⟩,
   ⟨"default_targets", false⟩, ⟨"field_targets", false⟩,
   ⟨"frame_fields", false⟩, ⟨"version", false⟩]

/-- The value a `DatasetDocument` holds at a unique-indexable (string)
field declaration; non-string fields carry no uniqueness index here. -/
def fieldValue (d : DatasetDocument) (fname : String) : Option String :=
  if fname = "name" then some d.name
  else if fname = "sample_collection_name" then some d.sample_collection_name
  else none

/-- Whether two documents collide on some field declared `unique=True`. -/
def uniquenessConflict (d e : DatasetDocument) : Bool :=
  datasetFieldDecls.any (fun decl => decl.unique && (fieldValue d decl.fname == fieldValue e decl.fname))

/-- Modelled from the spec: the external document store's create
operation (the MongoEngine/MongoDB collaborator is not part of this
excerpt). Per the spec, creation fails with a uniqueness-violation error
whenever a field declared unique collides with an already-persisted
document, and this layer performs no pre-check or retry. -/
def store_create (docs : List DatasetDocument) (d : DatasetDocument) :
    Except String (List DatasetDocument) :=
  if docs.any (uniquenessConflict d) then Except.error "uniqueness violation"
  else Except.ok (docs ++ [d])

/-- `EvaluationDocument`: name, ground-truth and predicted field names, an
open config mapping, and a `view` that is an ordered list of stage
mappings (`ListField(DictField())`). -/
structure EvaluationDocument where
  name : Option String
  gt_field : Option String
  pred_field : Option String
  config : List (String × String)
  view : List (List (String × String))
deriving DecidableEq, Repr

/-- A BSON-like serialized value: strings, documents (ordered key-value
lists), and arrays. -/
inductive BsonValue where
  | str (s : String) : BsonValue
  | doc (fields : List (String × BsonValue)) : BsonValue
  | arr (elems : List BsonValue) : BsonValue

/-- Modelled from the spec: serialization of one stage mapping of a
`view` (`DictField`) into a BSON document, preserving key order. -/
def serializeStage (d : List (String × String)) : BsonValue :=
  BsonValue.doc (d.map (fun kv => (kv.1, BsonValue.str kv.2)))

/-- Modelled from the spec: deserialization of a BSON document's ordered
field list back into a stage mapping; fails on non-string values. -/
def deserializeStageFields : List (String × BsonValue) → Option (List (String × String))
  | [] => some []
  | (k, BsonValue.str v) :: rest =>
    match deserializeStageFields rest with
    | some r => some ((k, v) :: r)
    | none => none
  | _ => none

/-- Modelled from the spec: deserialization of one stage mapping. -/
def deserializeStage : BsonValue → Option (List (String × String))
  | BsonValue.doc fields => deserializeStageFields fields
  | _ => none

/-- Modelled from the spec: serialization of an `EvaluationDocument`'s
`view` (`ListField(DictField())`) as a BSON array of stage documents, in
order. -/
def serializeView (v : List (List (String × String))) : BsonValue :=
  BsonValue.arr (v.map serializeStage)

/-- Modelled from the spec: deserialization of a list of serialized
stages, in order; fails if any element is not a stage document. -/
def deserializeStages : List BsonValue → Option (List (List (String × String)))
  | [] => some []
  | b :: rest =>
    match deserializeStage b, deserializeStages rest with
    | some s, some r => some (s :: r)
    | _, _ => none

/-- Modelled from the spec: deserialization of a serialized `view`. -/
def deserializeView : BsonValue → Option (List (List (String × String)))
  | BsonValue.arr elems => deserializeStages elems
  | _ => none

/-! ## Theorems -/

/-- Helper: the `embedded_doc_type` tail check always succeeds with `true`
when the projection's `embedded_doc_type` was produced by `getAttrRepr`
from the very attribute it is compared against. -/
theorem embeddedDocTypeCheck_getAttrRepr (sf : Option String) (n cls : String)
    (fa a : PyAttr) :
    SampleFieldDocument.embeddedDocTypeCheck
      ⟨some n, some cls, sf, SampleFieldDocument.getAttrRepr a⟩ ⟨n, cls, fa, a⟩ =
      Except.ok true := by
  cases a with
  | absent =>
    simp [SampleFieldDocument.embeddedDocTypeCheck, SampleFieldDocument.getAttrRepr, pyTruthy]
  | present t c =>
    cases t with
    | false =>
      simp [SampleFieldDocument.embeddedDocTypeCheck, SampleFieldDocument.getAttrRepr, pyTruthy]
    | true =>
      by_cases hc : c = "" <;>
        simp [SampleFieldDocument.embeddedDocTypeCheck, SampleFieldDocument.getAttrRepr,
          pyTruthy, hc]

/-- C1: for every Field Descriptor `f`,
`SampleFieldDocument.from_field(f).matches_field(f)` returns `True`
(round-trip): the projection built from a descriptor matches that
descriptor, and no attribute access raises along the way. -/
theorem from_field_matches_field_roundtrip (f : FieldDescriptor) :
    (SampleFieldDocument.from_field f).matches_field f = Except.ok true := by
  obtain ⟨n, cls, fa, da⟩ := f
  cases fa with
  | absent =>
    simpa [SampleFieldDocument.matches_field, SampleFieldDocument.from_field,
      SampleFieldDocument.getAttrRepr, pyTruthy] using
      embeddedDocTypeCheck_getAttrRepr none n cls PyAttr.absent da
  | present t c =>
    cases t with
    | false =>
      simpa [SampleFieldDocument.matches_field, SampleFieldDocument.from_field,
        SampleFieldDocument.getAttrRepr, pyTruthy] using
        embeddedDocTypeCheck_getAttrRepr none n cls (PyAttr.present false c) da
    | true =>
      by_cases hc : c = "" <;>
        simpa [SampleFieldDocument.matches_field, SampleFieldDocument.from_field,
          SampleFieldDocument.getAttrRepr, pyTruthy, hc] using
          embeddedDocTypeCheck_getAttrRepr (some c) n cls (PyAttr.present true c) da

/-- C2 (counterexample): `matches_field` can raise. A projection whose
`subfield` is the truthy string `"S"`, matched against a descriptor with
the same name and ftype but lacking the `field` attribute, dereferences
`field.field` and raises `AttributeError` instead of returning a
boolean, refuting "matches_field never raises". -/
theorem matches_field_can_raise :
    SampleFieldDocument.matches_field ⟨some "a", some "T", some "S", none⟩
      ⟨"a", "T", PyAttr.absent, PyAttr.absent⟩ =
      Except.error "AttributeError: field" := by
  rfl

/-- C2 (amended): whenever the projection's `subfield` and
`embedded_doc_type` are absent or falsy, `matches_field` does not raise:
those checks are skipped and the result is determined solely by the
`name` and `ftype` comparisons (both matching counts as a match). -/
theorem matches_field_no_raise_when_optionals_falsy
    (self : SampleFieldDocument) (f : FieldDescriptor)
    (hs : pyTruthy self.subfield = false)
    (he : pyTruthy self.embedded_doc_type = false) :
    self.matches_field f =
      Except.ok (decide (self.name = some f.name) && decide (self.ftype = some f.className)) := by
  by_cases hn : self.name = some f.name
  · by_cases hft : self.ftype = some f.className
    · simp [SampleFieldDocument.matches_field, SampleFieldDocument.embeddedDocTypeCheck,
        hn, hft, hs, he]
    · simp [SampleFieldDocument.matches_field, hn, hft]
  · simp [SampleFieldDocument.matches_field, hn]

/-- C2 (witness): the amended theorem applied at a concrete projection
with falsy optionals and a concrete matching descriptor. -/
theorem matches_field_no_raise_when_optionals_falsy_witness :
    SampleFieldDocument.matches_field ⟨some "a", some "T", none, some ""⟩
      ⟨"a", "T", PyAttr.absent, PyAttr.absent⟩ = Except.ok true := by
  have h := matches_field_no_raise_when_optionals_falsy
    ⟨some "a", some "T", none, some ""⟩ ⟨"a", "T", PyAttr.absent, PyAttr.absent⟩
    (by decide) (by decide)
  simpa using h

/-- C3: `list_from_field_schema` keeps, in the iteration order of the
input mapping, exactly the entries whose descriptor's name is not the
literal string `"id"`, and maps each kept entry to its projection. -/
theorem list_from_field_schema_filter_order (d : List (String × FieldDescriptor)) :
    SampleFieldDocument.list_from_field_schema d =
      (d.filter (fun kv => kv.2.name != "id")).map
        (fun kv => SampleFieldDocument.from_field kv.2) := by
  induction d with
  | nil => rfl
  | cons kv rest ih =>
    obtain ⟨k, f⟩ := kv
    by_cases hf : f.name = "id" <;>
      simp [SampleFieldDocument.list_from_field_schema, hf] <;>
      simpa [SampleFieldDocument.list_from_field_schema] using ih

/-- C4: when a projection's `subfield` and `embedded_doc_type` are absent
and its `name` / `ftype` equal the descriptor's name and runtime class
name, `matches_field` returns `True` regardless of the descriptor's
nested-field attribute and document-type attribute (widening). -/
theorem matches_field_widening (self : SampleFieldDocument) (f : FieldDescriptor)
    (hn : self.name = some f.name) (hft : self.ftype = some f.className)
    (hs : self.subfield = none) (he : self.embedded_doc_type = none) :
    self.matches_field f = Except.ok true := by
  simp [SampleFieldDocument.matches_field, SampleFieldDocument.embeddedDocTypeCheck,
    hn, hft, hs, he, pyTruthy]

/-- C4 (witness): a projection with both optionals absent matches a
descriptor carrying an arbitrary nested-field class name. -/
theorem matches_field_widening_witness :
    SampleFieldDocument.matches_field ⟨some "tags", some "ListField", none, none⟩
      ⟨"tags", "ListField", PyAttr.present true "IntField", PyAttr.absent⟩ =
      Except.ok true :=
  matches_field_widening ⟨some "tags", some "ListField", none, none⟩
    ⟨"tags", "ListField", PyAttr.present true "IntField", PyAttr.absent⟩
    rfl rfl rfl rfl

/-- C5: when the projection's `subfield` is set to a nonempty string `s`
and the descriptor has a nested field whose class name `c` differs from
`s`, `matches_field` returns `False` (never raises), whatever the name
and ftype comparisons yield. -/
theorem matches_field_subfield_mismatch (self : SampleFieldDocument)
    (f : FieldDescriptor) (s c : String) (t : Bool)
    (hsub : self.subfield = some s) (hs : s ≠ "")
    (hfield : f.field = PyAttr.present t c) (hdiff : s ≠ c) :
    self.matches_field f = Except.ok false := by
  by_cases hn : self.name = some f.name
  · by_cases hft : self.ftype = some f.className
    · simp [SampleFieldDocument.matches_field, hn, hft, hsub, hfield, pyTruthy, hs, hdiff]
    · simp [SampleFieldDocument.matches_field, hft]
  · simp [SampleFieldDocument.matches_field, hn]

/-- C5 (witness): the projection `{name:"tags", ftype:"ListField",
subfield:"StringField"}` does not match a `ListField(IntField)`
descriptor named `tags`. -/
theorem matches_field_subfield_mismatch_witness :
    SampleFieldDocument.matches_field
      ⟨some "tags", some "ListField", some "StringField", none⟩
      ⟨"tags", "ListField", PyAttr.present true "IntField", PyAttr.absent⟩ =
      Except.ok false :=
  matches_field_subfield_mismatch
    ⟨some "tags", some "ListField", some "StringField", none⟩
    ⟨"tags", "ListField", PyAttr.present true "IntField", PyAttr.absent⟩
    "StringField" "IntField" true rfl (by decide) rfl (by decide)

/-- C8: an empty-string `subfield` (resp. `embedded_doc_type`) behaves in
`matches_field` exactly like an absent one, for every descriptor: the
guard tests Python truthiness, and `""` is falsy. -/
theorem matches_field_empty_string_like_absent (sn sft ssub semb : Option String)
    (f : FieldDescriptor) :
    SampleFieldDocument.matches_field ⟨sn, sft, some "", semb⟩ f =
      SampleFieldDocument.matches_field ⟨sn, sft, none, semb⟩ f ∧
    SampleFieldDocument.matches_field ⟨sn, sft, ssub, some ""⟩ f =
      SampleFieldDocument.matches_field ⟨sn, sft, ssub, none⟩ f := by
  constructor
  · simp [SampleFieldDocument.matches_field, SampleFieldDocument.embeddedDocTypeCheck,
      pyTruthy]
  · simp [SampleFieldDocument.matches_field, SampleFieldDocument.embeddedDocTypeCheck,
      pyTruthy]

/-- C9: `from_field` leaves `subfield` (resp. `embedded_doc_type`) unset
both when the descriptor's `field` (resp. `document_type`) attribute is
absent and when it is present but falsy; being a total function of the
descriptor, it raises no attribute-access error in either case. -/
theorem from_field_absent_or_falsy_attr_gives_none (n cls c : String) (a : PyAttr) :
    (SampleFieldDocument.from_field ⟨n, cls, PyAttr.absent, a⟩).subfield = none ∧
    (SampleFieldDocument.from_field ⟨n, cls, PyAttr.present false c, a⟩).subfield = none ∧
    (SampleFieldDocument.from_field ⟨n, cls, a, PyAttr.absent⟩).embedded_doc_type = none ∧
    (SampleFieldDocument.from_field ⟨n, cls, a, PyAttr.present false c⟩).embedded_doc_type = none := by
  refine ⟨rfl, rfl, rfl, rfl⟩

/-- Helper: `list_from_field_schema` distributes over concatenation of
the mapping's entry list. -/
theorem list_from_field_schema_append (a b : List (String × FieldDescriptor)) :
    SampleFieldDocument.list_from_field_schema (a ++ b) =
      SampleFieldDocument.list_from_field_schema a ++
        SampleFieldDocument.list_from_field_schema b := by
  simp [SampleFieldDocument.list_from_field_schema]

/-- C10: `list_from_field_schema` excludes by each descriptor's own
`name` attribute, never by the mapping key: an entry stored under the key
`"id"` whose descriptor is named otherwise is kept in place, while an
entry under any key whose descriptor is named `"id"` is dropped. -/
theorem list_from_field_schema_uses_field_name_not_key (k : String)
    (f g : FieldDescriptor) (d1 d2 : List (String × FieldDescriptor))
    (hf : f.name ≠ "id") (hg : g.name = "id") :
    SampleFieldDocument.list_from_field_schema (d1 ++ ("id", f) :: d2) =
      SampleFieldDocument.list_from_field_schema d1 ++
        SampleFieldDocument.from_field f :: SampleFieldDocument.list_from_field_schema d2 ∧
    SampleFieldDocument.list_from_field_schema (d1 ++ (k, g) :: d2) =
      SampleFieldDocument.list_from_field_schema d1 ++
        SampleFieldDocument.list_from_field_schema d2 := by
  constructor
  · rw [list_from_field_schema_append]
    simp [SampleFieldDocument.list_from_field_schema, hf]
  · rw [list_from_field_schema_append]
    simp [SampleFieldDocument.list_from_field_schema, hg]

/-- C10 (witness): concrete one-entry mappings; the entry keyed `"id"`
with descriptor name `"x"` is kept, the entry keyed `"k"` with descriptor
name `"id"` is dropped. -/
theorem list_from_field_schema_uses_field_name_not_key_witness :
    SampleFieldDocument.list_from_field_schema
        ([] ++ ("id", (⟨"x", "StringField", PyAttr.absent, PyAttr.absent⟩ : FieldDescriptor)) :: []) =
      SampleFieldDocument.list_from_field_schema [] ++
        SampleFieldDocument.from_field ⟨"x", "StringField", PyAttr.absent, PyAttr.absent⟩ ::
          SampleFieldDocument.list_from_field_schema [] ∧
    SampleFieldDocument.list_from_field_schema
        ([] ++ ("k", (⟨"id", "ObjectIdField", PyAttr.absent, PyAttr.absent⟩ : FieldDescriptor)) :: []) =
      SampleFieldDocument.list_from_field_schema [] ++
        SampleFieldDocument.list_from_field_schema [] :=
  list_from_field_schema_uses_field_name_not_key "k"
    ⟨"x", "StringField", PyAttr.absent, PyAttr.absent⟩
    ⟨"id", "ObjectIdField", PyAttr.absent, PyAttr.absent⟩ [] []
    (by decide) rfl

/-- C6: two `DatasetDocument`s with the same `name` cannot both be
persisted: once the first create succeeds, the second create attempt
fails with a uniqueness-violation error from the store, with no pre-check
or retry in this layer. -/
theorem store_create_rejects_duplicate_name (docs docs' : List DatasetDocument)
    (d1 d2 : DatasetDocument) (hname : d1.name = d2.name)
    (hok : store_create docs d1 = Except.ok docs') :
    ∃ msg, store_create docs' d2 = Except.error msg := by
  unfold store_create at hok
  split at hok
  · exact absurd hok (by simp)
  · have hdocs : docs ++ [d1] = docs' := by
      injection hok
    refine ⟨"uniqueness violation", ?_⟩
    unfold store_create
    rw [if_pos]
    rw [← hdocs, List.any_append]
    have hconf : uniquenessConflict d2 d1 = true := by
      simp [uniquenessConflict, datasetFieldDecls, fieldValue, hname]
    simp [hconf]

/-- C6 (witness): creating a dataset named `"ds"` into an empty store
succeeds, and a second create with the same name fails. -/
theorem store_create_rejects_duplicate_name_witness :
    ∃ msg,
      store_create
        [⟨none, "ds", "samples.one", false, [], [], none, [], [], some "0.1"⟩]
        ⟨none, "ds", "samples.two", true, [], [], none, [], [], some "0.1"⟩ =
        Except.error msg :=
  store_create_rejects_duplicate_name []
    [⟨none, "ds", "samples.one", false, [], [], none, [], [], some "0.1"⟩]
    ⟨none, "ds", "samples.one", false, [], [], none, [], [], some "0.1"⟩
    ⟨none, "ds", "samples.two", true, [], [], none, [], [], some "0.1"⟩
    rfl rfl

/-- Helper: a stage mapping's ordered field list survives the
serialize/deserialize round trip. -/
theorem deserializeStageFields_roundtrip (d : List (String × String)) :
    deserializeStageFields (d.map (fun kv => (kv.1, BsonValue.str kv.2))) = some d := by
  induction d with
  | nil => rfl
  | cons kv rest ih =>
    obtain ⟨k, v⟩ := kv
    simp [deserializeStageFields, ih]

/-- Helper: one stage mapping survives the round trip. -/
theorem deserializeStage_roundtrip (d : List (String × String)) :
    deserializeStage (serializeStage d) = some d := by
  simp [serializeStage, deserializeStage, deserializeStageFields_roundtrip]

/-- Helper: a list of stage mappings survives the round trip in order. -/
theorem deserializeStages_roundtrip (v : List (List (String × String))) :
    deserializeStages (v.map serializeStage) = some v := by
  induction v with
  | nil => rfl
  | cons s rest ih => simp [deserializeStages, deserializeStage_roundtrip, ih]

/-- C7: an `EvaluationDocument`'s `view` round-trips through
serialization as an ordered sequence of stage mappings: deserializing the
serialized view yields exactly the original list, so the number, order
and content of the stage mappings are preserved. -/
theorem evaluation_view_roundtrip (e : EvaluationDocument) :
    deserializeView (serializeView e.view) = some e.view := by
  simp [serializeView, deserializeView, deserializeStages_roundtrip]
